import Mathlib

/-!
# Verification of `tools/cmyk2srgbjpeg.c`

A shallow embedding of the `cmyk2srgbjpeg` command-line driver from libvips.
The driver opens an input image, inspects its colour interpretation, and, when
the image is CMYK, composes an output filename and invokes the library's ICC
transform and file-write steps, mapping outcomes to fixed status codes.

The imaging library calls (`vips_image_new_mode`, `vips_image_get_interpretation`,
`vips_icc_transform`, `vips_image_write_to_file`) are black-box services from the
driver's point of view; they are modelled by an `Env` record giving, for one
invocation, the outcome each service would report.  The driver's own logic —
argument checking, the CMYK branch, the path-length check, filename composition
via `vips_snprintf`, the status codes, and the unconditional release of the
scoped image context — is translated line by line from `main`.
-/

/-- Colour interpretations (`VipsInterpretation` in the library); the driver
only distinguishes `VIPS_INTERPRETATION_CMYK` from everything else. -/
inductive VipsInterpretation where
  | multiband
  | bw
  | srgb
  | rgb
  | lab
  | cmyk
  deriving DecidableEq, Repr

/-- Modelled from the spec: `VIPS_PATH_MAX`, the library's maximum path length
(the buffer size of `output_filename` in `main`); the header defining it is not
part of the sources here.  Its value in libvips is 4096. -/
def VIPS_PATH_MAX : Nat := 4096

/-- Return code: nothing was done (not detected as CMYK). -/
def CMYK2SRGBJPEG_PROBABLY_NOT_CMYK : Nat := 0

/-- Return code: the program failed. -/
def CMYK2SRGBJPEG_FATAL_ERROR : Nat := 1

/-- Return code: the embedded ICC profile could not be used, the backstop
profile was substituted. -/
def CMYK2SRGBJPEG_CMYK_WITH_UNUSABLE_ICC : Nat := 2

/-- Return code: no embedded ICC profile was detected, the backstop profile
was substituted. -/
def CMYK2SRGBJPEG_CMYK_NO_ICC : Nat := 3

/-- Return code: import was performed with the embedded ICC profile. -/
def CMYK2SRGBJPEG_CMYK_WITH_USABLE_ICC : Nat := 4

/-- The compile-time configuration of the tool (the user configurable
defines of `cmyk2srgbjpeg.c`). -/
structure Config where
  /-- the define CMYK2SRGBJPEG_BACKSTOP_CMYK_ICC -/
  backstopCmykIcc : String
  /-- the define CMYK2SRGBJPEG_SRGB_ICM -/
  srgbIcm : String
  /-- the define CMYK2SRGBJPEG_JPEG_QUALITY (an integer between 0 and 100) -/
  jpegQuality : Nat
  /-- the define CMYK2SRGBJPEG_JPEG_EXTENSION -/
  jpegExtension : String
  deriving DecidableEq, Repr

/-- The configuration as delivered (the default values of the defines). -/
def defaultConfig : Config :=
  { backstopCmykIcc := "/home/john/vips/share/nip2/data/HP5000_UVDuraImageGlossMaxQ.icc"
    srgbIcm := "/home/john/vips/share/nip2/data/sRGB.icm"
    jpegQuality := 99
    jpegExtension := "jpg" }

/-- The behaviour, for one invocation, of the imaging-library services the
driver calls.  Each field records the outcome the corresponding black-box call
would report; `hasEmbeddedProfile` records whether the input image carries an
embedded ICC profile (a fact the driver itself never inspects), and
`encodedBytes` the byte content the (deterministic) encoder would produce for
the transformed image. -/
structure Env where
  /-- whether `vips_image_new_mode( argv[1], "rs" )` returns a non-NULL image -/
  openOk : Bool
  /-- the value `vips_image_get_interpretation( t[0] )` reports -/
  interpretation : VipsInterpretation
  /-- whether the input image has an embedded ICC profile -/
  hasEmbeddedProfile : Bool
  /-- whether `vips_icc_transform( ... )` returns 0 (success) -/
  transformOk : Bool
  /-- whether `vips_image_write_to_file( t[1], output_filename )` returns 0 (success) -/
  writeOk : Bool
  /-- the bytes the JPEG encoder produces for the transformed image -/
  encodedBytes : List Nat
  deriving DecidableEq, Repr

/-- Model of `vips_snprintf( buf, size, ... )`: it formats into a buffer of `size` bytes,
truncating to at most `size - 1` characters and always NUL-terminating. -/
def vips_snprintf (size : Nat) (s : String) : String :=
  ⟨s.data.take (size - 1)⟩

/-- The bound of the path-length check in `main`:
`VIPS_PATH_MAX - (strlen( CMYK2SRGBJPEG_JPEG_EXTENSION ) + 8)`, computed in
`size_t` arithmetic (the subtraction wraps modulo `2^64`). -/
def lengthBound (cfg : Config) : Nat :=
  (VIPS_PATH_MAX + 2 ^ 64 - (cfg.jpegExtension.length + 8)) % 2 ^ 64

/-- The string `main` assembles into `output_filename`:
`vips_snprintf( output_filename, VIPS_PATH_MAX, "%s.%s[Q=%d]", argv[2],
CMYK2SRGBJPEG_JPEG_EXTENSION, CMYK2SRGBJPEG_JPEG_QUALITY )`. -/
def output_filename (cfg : Config) (base : String) : String :=
  vips_snprintf VIPS_PATH_MAX
    (base ++ "." ++ cfg.jpegExtension ++ "[Q=" ++ toString cfg.jpegQuality ++ "]")

/-- The observable outcome of one invocation of `main` (after option parsing
and the creation of the scoped context `global`). -/
structure RunResult where
  /-- the return value of `main` -/
  status : Nat
  /-- whether `vips_icc_transform` was invoked -/
  transformInvoked : Bool
  /-- the filename string handed to `vips_image_write_to_file`, when that call
  was made -/
  writeTarget : Option String
  /-- the filename successfully written (`some` exactly when the write call was
  made and reported success) -/
  written : Option String
  /-- the bytes of the output file, when one was produced -/
  writtenBytes : Option (List Nat)
  /-- whether `g_object_unref( global )` ran before the return -/
  released : Bool
  deriving DecidableEq, Repr

/-- The body of `main` from the creation of `global` onward, translated from
`tools/cmyk2srgbjpeg.c`.  `argv` is the argument vector after option parsing
(`argv.length` is `argc`); `env` gives the outcomes of the library calls. -/
def run (cfg : Config) (argv : List String) (env : Env) : RunResult :=
  if argv.length ≠ 3 ∨ env.openOk = false then
    -- `if( argc != 3 || !(t[0] = vips_image_new_mode( argv[1], "rs" )) )`
    { status := CMYK2SRGBJPEG_FATAL_ERROR
      transformInvoked := false, writeTarget := none, written := none
      writtenBytes := none, released := true }
  else if env.interpretation = VipsInterpretation.cmyk then
    if (argv.getD 2 "").length > lengthBound cfg then
      -- the path-length check fails
      { status := CMYK2SRGBJPEG_FATAL_ERROR
        transformInvoked := false, writeTarget := none, written := none
        writtenBytes := none, released := true }
    else if env.transformOk = false then
      -- `vips_icc_transform` failed
      { status := CMYK2SRGBJPEG_FATAL_ERROR
        transformInvoked := true, writeTarget := none, written := none
        writtenBytes := none, released := true }
    else if env.writeOk = false then
      -- `vips_image_write_to_file` failed
      { status := CMYK2SRGBJPEG_FATAL_ERROR
        transformInvoked := true
        writeTarget := some (output_filename cfg (argv.getD 2 ""))
        written := none, writtenBytes := none, released := true }
    else
      { status := CMYK2SRGBJPEG_CMYK_WITH_USABLE_ICC
        transformInvoked := true
        writeTarget := some (output_filename cfg (argv.getD 2 ""))
        written := some (output_filename cfg (argv.getD 2 ""))
        writtenBytes := some env.encodedBytes, released := true }
  else
    -- not detected as a CMYK image: do nothing
    { status := CMYK2SRGBJPEG_PROBABLY_NOT_CMYK
      transformInvoked := false, writeTarget := none, written := none
      writtenBytes := none, released := true }

/-- An environment in which every library call succeeds and the input is CMYK
with an embedded profile. -/
def envAllOk : Env :=
  { openOk := true, interpretation := VipsInterpretation.cmyk
    hasEmbeddedProfile := true, transformOk := true, writeOk := true
    encodedBytes := [255, 216, 255] }

/-- An environment identical to `envAllOk` except that the colour transform
step fails. -/
def envTransformFails : Env :=
  { envAllOk with transformOk := false }

/-- An environment identical to `envAllOk` except that the input image is
reported as sRGB rather than CMYK. -/
def envSrgbImage : Env :=
  { envAllOk with interpretation := VipsInterpretation.srgb }

/-- An output base path of 4086 characters, one more than the default
configuration's path-length bound of 4085. -/
def overlongBase : String := ⟨List.replicate 4086 'a'⟩

/-- An environment identical to `envAllOk` except that the input image has no
embedded ICC profile. -/
def envNoEmbeddedIcc : Env :=
  { envAllOk with hasEmbeddedProfile := false }

/-- The composed output name, before any buffer truncation. -/
def composedName (cfg : Config) (base : String) : String :=
  base ++ "." ++ cfg.jpegExtension ++ "[Q=" ++ toString cfg.jpegQuality ++ "]"

/-- The configuration with the JPEG quality raised to 100, the largest value
the quality-specifier comment in `main` accounts for. -/
def cfg100 : Config :=
  { defaultConfig with jpegQuality := 100 }

/-- An output base path of exactly 4085 characters, the largest length the
path-length check accepts under `cfg100`. -/
def base4085 : String := ⟨List.replicate 4085 'a'⟩

/-- The length of `overlongBase` is 4086, one more than the default
configuration's bound of 4085. -/
theorem overlongBase_length : overlongBase.length = 4086 := by
  show (List.replicate 4086 'a').length = 4086
  rw [List.length_replicate]

/-- C1: the output file is produced if and only if the input is detected as
CMYK (two arguments given, open succeeded, interpretation is CMYK) and the
path-length check, the colour-transform step, and the write step all succeed;
moreover, when the transform step fails, nothing is ever handed to the write
step, so no partial or corrupt output file is left on disk. -/
theorem c1_output_iff_all_steps_succeed (cfg : Config) (argv : List String) (env : Env) :
    ((run cfg argv env).written.isSome = true ↔
      (argv.length = 3 ∧ env.openOk = true ∧
        env.interpretation = VipsInterpretation.cmyk ∧
        (argv.getD 2 "").length ≤ lengthBound cfg ∧
        env.transformOk = true ∧ env.writeOk = true)) ∧
    (env.transformOk = false →
      (run cfg argv env).written = none ∧ (run cfg argv env).writeTarget = none) := by
  unfold run
  split_ifs with h1 h2 h3 h4 h5 <;> simp_all [not_lt]
  intro ha hb _ _ _
  rcases h1 with h | h
  · exact absurd ha h
  · rw [hb] at h
    simp at h

/-- C1 witness: with the transform step failing, the run leaves no output. -/
theorem c1_witness :
    (run defaultConfig ["cmyk2srgbjpeg", "in.tif", "out"] envTransformFails).written = none :=
  ((c1_output_iff_all_steps_succeed defaultConfig
    ["cmyk2srgbjpeg", "in.tif", "out"] envTransformFails).2 rfl).1

/-- C2: for an input whose colour interpretation is not the CMYK variant, the
program returns `CMYK2SRGBJPEG_PROBABLY_NOT_CMYK` (0), never invokes the
transform step, and creates no output file. -/
theorem c2_not_cmyk_returns_zero_no_write (cfg : Config) (argv : List String) (env : Env)
    (hargc : argv.length = 3) (hopen : env.openOk = true)
    (hinterp : env.interpretation ≠ VipsInterpretation.cmyk) :
    (run cfg argv env).status = CMYK2SRGBJPEG_PROBABLY_NOT_CMYK ∧
    (run cfg argv env).transformInvoked = false ∧
    (run cfg argv env).writeTarget = none ∧
    (run cfg argv env).written = none := by
  unfold run
  split_ifs <;> simp_all

/-- C2 witness: a successfully opened sRGB image yields status 0 and no write. -/
theorem c2_witness :
    (run defaultConfig ["cmyk2srgbjpeg", "in.tif", "out"] envSrgbImage).status =
      CMYK2SRGBJPEG_PROBABLY_NOT_CMYK ∧
    (run defaultConfig ["cmyk2srgbjpeg", "in.tif", "out"] envSrgbImage).transformInvoked = false ∧
    (run defaultConfig ["cmyk2srgbjpeg", "in.tif", "out"] envSrgbImage).writeTarget = none ∧
    (run defaultConfig ["cmyk2srgbjpeg", "in.tif", "out"] envSrgbImage).written = none :=
  c2_not_cmyk_returns_zero_no_write defaultConfig _ envSrgbImage rfl rfl (by decide)

/-- C4: for a CMYK input whose output base path is longer than
`VIPS_PATH_MAX - (strlen(extension) + 8)`, the program returns
`CMYK2SRGBJPEG_FATAL_ERROR` (1) and writes nothing: the transform and write
steps are never invoked. -/
theorem c4_overlong_base_fatal (cfg : Config) (argv : List String) (env : Env)
    (hargc : argv.length = 3) (hopen : env.openOk = true)
    (hcmyk : env.interpretation = VipsInterpretation.cmyk)
    (hlen : (argv.getD 2 "").length > lengthBound cfg) :
    (run cfg argv env).status = CMYK2SRGBJPEG_FATAL_ERROR ∧
    (run cfg argv env).transformInvoked = false ∧
    (run cfg argv env).writeTarget = none ∧
    (run cfg argv env).written = none := by
  unfold run
  split_ifs <;> simp_all

/-- C4 witness: a 4086-character base path with the delivered configuration
(bound 4085) is rejected with a fatal error and no write. -/
theorem c4_witness :
    (run defaultConfig ["cmyk2srgbjpeg", "in.tif", overlongBase] envAllOk).status =
      CMYK2SRGBJPEG_FATAL_ERROR ∧
    (run defaultConfig ["cmyk2srgbjpeg", "in.tif", overlongBase] envAllOk).transformInvoked = false ∧
    (run defaultConfig ["cmyk2srgbjpeg", "in.tif", overlongBase] envAllOk).writeTarget = none ∧
    (run defaultConfig ["cmyk2srgbjpeg", "in.tif", overlongBase] envAllOk).written = none :=
  c4_overlong_base_fatal defaultConfig _ envAllOk rfl rfl rfl
    (by rw [List.getD_cons_succ, List.getD_cons_succ, List.getD_cons_zero, overlongBase_length]; decide)

/-- C5: with an argument count other than 3 (program name plus exactly two
positional arguments), or when opening the input image fails, the program
returns `CMYK2SRGBJPEG_FATAL_ERROR` (1) and creates no output file. -/
theorem c5_bad_args_or_open_failure_fatal (cfg : Config) (argv : List String) (env : Env)
    (h : argv.length ≠ 3 ∨ env.openOk = false) :
    (run cfg argv env).status = CMYK2SRGBJPEG_FATAL_ERROR ∧
    (run cfg argv env).transformInvoked = false ∧
    (run cfg argv env).writeTarget = none ∧
    (run cfg argv env).written = none := by
  unfold run
  rw [if_pos h]
  exact ⟨rfl, rfl, rfl, rfl⟩

/-- C5 witness: a single-argument invocation is a fatal error with no write. -/
theorem c5_witness :
    (run defaultConfig ["cmyk2srgbjpeg"] envAllOk).status = CMYK2SRGBJPEG_FATAL_ERROR ∧
    (run defaultConfig ["cmyk2srgbjpeg"] envAllOk).transformInvoked = false ∧
    (run defaultConfig ["cmyk2srgbjpeg"] envAllOk).writeTarget = none ∧
    (run defaultConfig ["cmyk2srgbjpeg"] envAllOk).written = none :=
  c5_bad_args_or_open_failure_fatal defaultConfig _ envAllOk (Or.inl (by decide))

/-- C7: on every exit path of the run — open or argument failure, non-CMYK
detection, path-length overflow, transform failure, write failure, full
success — the scoped image context (`global`, which owns the input image
handle) is released before the status code is returned. -/
theorem c7_context_released_on_every_path (cfg : Config) (argv : List String) (env : Env) :
    (run cfg argv env).released = true := by
  unfold run
  split_ifs <;> rfl

/-- C10: for a successfully opened non-CMYK input the program returns status 0
even when the output base path exceeds the path-length bound, because the
length check only runs inside the CMYK branch. -/
theorem c10_non_cmyk_skips_length_check (cfg : Config) (argv : List String) (env : Env)
    (hargc : argv.length = 3) (hopen : env.openOk = true)
    (hinterp : env.interpretation ≠ VipsInterpretation.cmyk)
    (hlen : (argv.getD 2 "").length > lengthBound cfg) :
    (run cfg argv env).status = CMYK2SRGBJPEG_PROBABLY_NOT_CMYK ∧
    (run cfg argv env).status ≠ CMYK2SRGBJPEG_FATAL_ERROR := by
  unfold run
  split_ifs <;>
    simp_all [CMYK2SRGBJPEG_PROBABLY_NOT_CMYK, CMYK2SRGBJPEG_FATAL_ERROR]

/-- C10 witness: an sRGB input with a 4086-character base path still returns
status 0. -/
theorem c10_witness :
    (run defaultConfig ["cmyk2srgbjpeg", "in.tif", overlongBase] envSrgbImage).status =
      CMYK2SRGBJPEG_PROBABLY_NOT_CMYK ∧
    (run defaultConfig ["cmyk2srgbjpeg", "in.tif", overlongBase] envSrgbImage).status ≠
      CMYK2SRGBJPEG_FATAL_ERROR :=
  c10_non_cmyk_skips_length_check defaultConfig _ envSrgbImage rfl rfl (by decide)
    (by rw [List.getD_cons_succ, List.getD_cons_succ, List.getD_cons_zero, overlongBase_length]; decide)

/-- Evaluation of the run on the full-success path: two arguments, open
succeeded, CMYK detected, length check passed, transform and write succeeded. -/
theorem run_success_eq (cfg : Config) (argv : List String) (env : Env)
    (hargc : argv.length = 3) (hopen : env.openOk = true)
    (hcmyk : env.interpretation = VipsInterpretation.cmyk)
    (hlen : ¬ (argv.getD 2 "").length > lengthBound cfg)
    (htr : env.transformOk = true) (hwr : env.writeOk = true) :
    run cfg argv env =
      { status := CMYK2SRGBJPEG_CMYK_WITH_USABLE_ICC
        transformInvoked := true
        writeTarget := some (output_filename cfg (argv.getD 2 ""))
        written := some (output_filename cfg (argv.getD 2 ""))
        writtenBytes := some env.encodedBytes
        released := true } := by
  unfold run
  rw [if_neg (by simp [hargc, hopen]), if_pos hcmyk, if_neg hlen,
    if_neg (by simp [htr]), if_neg (by simp [hwr])]

/-- C3 counterexample: a valid CMYK input with no embedded ICC profile whose
transform and write both succeed produces the output file, yet the returned
status is not `CMYK2SRGBJPEG_CMYK_NO_ICC` (3). -/
theorem c3_counterexample :
    envNoEmbeddedIcc.interpretation = VipsInterpretation.cmyk ∧
    envNoEmbeddedIcc.hasEmbeddedProfile = false ∧
    envNoEmbeddedIcc.transformOk = true ∧
    envNoEmbeddedIcc.writeOk = true ∧
    (run defaultConfig ["cmyk2srgbjpeg", "in.tif", "out"] envNoEmbeddedIcc).written.isSome
      = true ∧
    (run defaultConfig ["cmyk2srgbjpeg", "in.tif", "out"] envNoEmbeddedIcc).status ≠
      CMYK2SRGBJPEG_CMYK_NO_ICC := by
  decide

/-- C3 amended: for a valid CMYK input with no embedded ICC profile, when the
transform and write succeed, the program still supplies the backstop profile to
the transform step, but its status is always `CMYK2SRGBJPEG_CMYK_WITH_USABLE_ICC`
(4): `main` has a single success return and never distinguishes the
no-embedded-profile case with code 3 (or the unusable-profile case with
code 2). -/
theorem c3_amended_success_always_code_four (cfg : Config) (argv : List String) (env : Env)
    (hargc : argv.length = 3) (hopen : env.openOk = true)
    (hcmyk : env.interpretation = VipsInterpretation.cmyk)
    (_hnoicc : env.hasEmbeddedProfile = false)
    (hlen : (argv.getD 2 "").length ≤ lengthBound cfg)
    (htr : env.transformOk = true) (hwr : env.writeOk = true) :
    (run cfg argv env).status = CMYK2SRGBJPEG_CMYK_WITH_USABLE_ICC ∧
    (run cfg argv env).status ≠ CMYK2SRGBJPEG_CMYK_NO_ICC ∧
    (run cfg argv env).status ≠ CMYK2SRGBJPEG_CMYK_WITH_UNUSABLE_ICC ∧
    (run cfg argv env).written.isSome = true := by
  rw [run_success_eq cfg argv env hargc hopen hcmyk (by omega) htr hwr]
  refine ⟨rfl, ?_, ?_, rfl⟩
  · show CMYK2SRGBJPEG_CMYK_WITH_USABLE_ICC ≠ CMYK2SRGBJPEG_CMYK_NO_ICC
    decide
  · show CMYK2SRGBJPEG_CMYK_WITH_USABLE_ICC ≠ CMYK2SRGBJPEG_CMYK_WITH_UNUSABLE_ICC
    decide

/-- C3 amended witness: the concrete no-embedded-profile success run returns 4. -/
theorem c3_witness :
    (run defaultConfig ["cmyk2srgbjpeg", "in.tif", "out"] envNoEmbeddedIcc).status =
      CMYK2SRGBJPEG_CMYK_WITH_USABLE_ICC ∧
    (run defaultConfig ["cmyk2srgbjpeg", "in.tif", "out"] envNoEmbeddedIcc).status ≠
      CMYK2SRGBJPEG_CMYK_NO_ICC ∧
    (run defaultConfig ["cmyk2srgbjpeg", "in.tif", "out"] envNoEmbeddedIcc).status ≠
      CMYK2SRGBJPEG_CMYK_WITH_UNUSABLE_ICC ∧
    (run defaultConfig ["cmyk2srgbjpeg", "in.tif", "out"] envNoEmbeddedIcc).written.isSome
      = true :=
  c3_amended_success_always_code_four defaultConfig _ envNoEmbeddedIcc rfl rfl rfl rfl
    (by decide) rfl rfl

/-- C8 counterexample: with input path `a.jpg[Q=99]` and output base `a`, the
composed output path equals the input path, yet no pre-check rejects the
conversion: the write step is invoked on that very path and the run succeeds. -/
theorem c8_counterexample :
    ["cmyk2srgbjpeg", "a.jpg[Q=99]", "a"].getD 1 "" = "a.jpg[Q=99]" ∧
    (run defaultConfig ["cmyk2srgbjpeg", "a.jpg[Q=99]", "a"] envAllOk).writeTarget =
      some "a.jpg[Q=99]" ∧
    (run defaultConfig ["cmyk2srgbjpeg", "a.jpg[Q=99]", "a"] envAllOk).written =
      some "a.jpg[Q=99]" ∧
    (run defaultConfig ["cmyk2srgbjpeg", "a.jpg[Q=99]", "a"] envAllOk).status ≠
      CMYK2SRGBJPEG_FATAL_ERROR ∧
    (run defaultConfig ["cmyk2srgbjpeg", "a.jpg[Q=99]", "a"] envAllOk).status ≠
      CMYK2SRGBJPEG_PROBABLY_NOT_CMYK := by
  decide

/-- C8 amended: `main` has no output-equals-input guard: when the composed
output path equals the input path and every step succeeds, the write step is
invoked with exactly the input path and the run returns the success status. -/
theorem c8_amended_no_overwrite_guard (cfg : Config) (argv : List String) (env : Env)
    (hargc : argv.length = 3) (hopen : env.openOk = true)
    (hcmyk : env.interpretation = VipsInterpretation.cmyk)
    (hlen : (argv.getD 2 "").length ≤ lengthBound cfg)
    (htr : env.transformOk = true) (hwr : env.writeOk = true)
    (heq : output_filename cfg (argv.getD 2 "") = argv.getD 1 "") :
    (run cfg argv env).writeTarget = some (argv.getD 1 "") ∧
    (run cfg argv env).written = some (argv.getD 1 "") ∧
    (run cfg argv env).status = CMYK2SRGBJPEG_CMYK_WITH_USABLE_ICC := by
  rw [run_success_eq cfg argv env hargc hopen hcmyk (by omega) htr hwr]
  exact ⟨by rw [heq], by rw [heq], rfl⟩

/-- C8 amended witness: the concrete colliding invocation writes over the
input path. -/
theorem c8_witness :
    (run defaultConfig ["cmyk2srgbjpeg", "a.jpg[Q=99]", "a"] envAllOk).writeTarget =
      some (["cmyk2srgbjpeg", "a.jpg[Q=99]", "a"].getD 1 "") ∧
    (run defaultConfig ["cmyk2srgbjpeg", "a.jpg[Q=99]", "a"] envAllOk).written =
      some (["cmyk2srgbjpeg", "a.jpg[Q=99]", "a"].getD 1 "") ∧
    (run defaultConfig ["cmyk2srgbjpeg", "a.jpg[Q=99]", "a"] envAllOk).status =
      CMYK2SRGBJPEG_CMYK_WITH_USABLE_ICC :=
  c8_amended_no_overwrite_guard defaultConfig _ envAllOk rfl rfl rfl (by decide) rfl rfl
    (by decide)

/-- C9: the driver is deterministic: two invocations on the same CMYK input
with the same argument vector, configuration, and (deterministic) library
behaviour return the same status code and produce byte-for-byte identical
output. -/
theorem c9_two_runs_identical (cfg : Config) (argv : List String) (env₁ env₂ : Env)
    (_hcmyk : env₁.interpretation = VipsInterpretation.cmyk)
    (hsame : env₁ = env₂) :
    (run cfg argv env₁).status = (run cfg argv env₂).status ∧
    (run cfg argv env₁).writtenBytes = (run cfg argv env₂).writtenBytes ∧
    (run cfg argv env₁).written = (run cfg argv env₂).written := by
  subst hsame
  exact ⟨rfl, rfl, rfl⟩

/-- C9 witness: two identical all-success runs agree on status and bytes. -/
theorem c9_witness :
    (run defaultConfig ["cmyk2srgbjpeg", "in.tif", "out"] envAllOk).status =
      (run defaultConfig ["cmyk2srgbjpeg", "in.tif", "out"] envAllOk).status ∧
    (run defaultConfig ["cmyk2srgbjpeg", "in.tif", "out"] envAllOk).writtenBytes =
      (run defaultConfig ["cmyk2srgbjpeg", "in.tif", "out"] envAllOk).writtenBytes ∧
    (run defaultConfig ["cmyk2srgbjpeg", "in.tif", "out"] envAllOk).written =
      (run defaultConfig ["cmyk2srgbjpeg", "in.tif", "out"] envAllOk).written :=
  c9_two_runs_identical defaultConfig _ envAllOk envAllOk rfl rfl

/-- The length of the composed output name is the base length plus the
extension length plus the quality-digit count plus 5 (the period and the
four bracket characters). -/
theorem composedName_length (cfg : Config) (base : String) :
    (composedName cfg base).length =
      base.length + cfg.jpegExtension.length + (toString cfg.jpegQuality).length + 5 := by
  show ((((base ++ ".") ++ cfg.jpegExtension) ++ "[Q=") ++ toString cfg.jpegQuality ++ "]").length = _
  simp [String.length_append, show (".": String).length = 1 from rfl,
    show ("[Q=": String).length = 3 from rfl, show ("]": String).length = 1 from rfl]
  omega

/-- Whenever the composed output name fits in the buffer, `vips_snprintf`
performs no truncation and `output_filename` is exactly the composed name. -/
theorem output_filename_eq_of_fits (cfg : Config) (base : String)
    (hfit : base.length + cfg.jpegExtension.length +
      (toString cfg.jpegQuality).length + 5 ≤ VIPS_PATH_MAX - 1) :
    output_filename cfg base = composedName cfg base := by
  unfold output_filename vips_snprintf
  have hl : (composedName cfg base).data.length ≤ VIPS_PATH_MAX - 1 := by
    have := composedName_length cfg base
    show (composedName cfg base).length ≤ VIPS_PATH_MAX - 1
    omega
  show (⟨(composedName cfg base).data.take (VIPS_PATH_MAX - 1)⟩ : String) = composedName cfg base
  rw [List.take_of_length_le hl]

/-- The truncated length of `output_filename`. -/
theorem output_filename_length (cfg : Config) (base : String) :
    (output_filename cfg base).length =
      min (VIPS_PATH_MAX - 1)
        (base.length + cfg.jpegExtension.length + (toString cfg.jpegQuality).length + 5) := by
  show ((composedName cfg base).data.take (VIPS_PATH_MAX - 1)).length = _
  rw [List.length_take]
  congr 1
  exact composedName_length cfg base

/-- The length of `base4085` is 4085. -/
theorem base4085_length : base4085.length = 4085 := by
  show (List.replicate 4085 'a').length = 4085
  rw [List.length_replicate]

/-- C6 counterexample: with quality 100 and a 4085-character base path — a
combination that passes the path-length check — the string handed to the write
step is NOT `<base>.<extension>[Q=<quality>]`: the composition needs 4096
characters but `vips_snprintf` truncates it to `VIPS_PATH_MAX - 1` = 4095
characters, cutting the closing bracket. -/
theorem c6_counterexample :
    base4085.length ≤ lengthBound cfg100 ∧
    cfg100.jpegQuality ≤ 100 ∧
    (run cfg100 ["cmyk2srgbjpeg", "in.tif", base4085] envAllOk).writeTarget.isSome = true ∧
    (run cfg100 ["cmyk2srgbjpeg", "in.tif", base4085] envAllOk).writeTarget ≠
      some (base4085 ++ "." ++ cfg100.jpegExtension ++ "[Q=" ++
        toString cfg100.jpegQuality ++ "]") := by
  have hbound : lengthBound cfg100 = 4085 := by decide
  have hq : (toString cfg100.jpegQuality).length = 3 := rfl
  have hext : cfg100.jpegExtension.length = 3 := rfl
  have hle : ¬ base4085.length > lengthBound cfg100 := by
    rw [base4085_length, hbound]
    omega
  have hrun := run_success_eq cfg100 ["cmyk2srgbjpeg", "in.tif", base4085] envAllOk
    rfl rfl rfl hle rfl rfl
  refine ⟨by rw [base4085_length, hbound], by decide, ?_, ?_⟩
  · rw [hrun]
    rfl
  · rw [hrun]
    intro h
    have h2 : output_filename cfg100 base4085 = composedName cfg100 base4085 :=
      Option.some.inj h
    have h3 := congrArg String.length h2
    rw [output_filename_length, composedName_length, base4085_length, hq, hext] at h3
    simp [VIPS_PATH_MAX] at h3

/-- C6 amended: for every CMYK input that passes the length check, the
filename handed to the write step equals
`<output_base_path>.<configured_extension>[Q=<configured_quality>]`, provided
the composition fits in the `VIPS_PATH_MAX`-byte buffer (at most
`VIPS_PATH_MAX - 1` characters) — which the delivered defaults
(`.jpg[Q=99]`) always guarantee; with a three-digit quality and a base path of
the maximal accepted length the name is instead truncated by one character. -/
theorem c6_amended_write_target_is_composed_name (cfg : Config) (argv : List String)
    (env : Env)
    (hargc : argv.length = 3) (hopen : env.openOk = true)
    (hcmyk : env.interpretation = VipsInterpretation.cmyk)
    (hlen : (argv.getD 2 "").length ≤ lengthBound cfg)
    (htr : env.transformOk = true)
    (hfit : (argv.getD 2 "").length + cfg.jpegExtension.length +
      (toString cfg.jpegQuality).length + 5 ≤ VIPS_PATH_MAX - 1) :
    (run cfg argv env).writeTarget =
      some ((argv.getD 2 "") ++ "." ++ cfg.jpegExtension ++ "[Q=" ++
        toString cfg.jpegQuality ++ "]") := by
  unfold run
  rw [if_neg (by simp [hargc, hopen]), if_pos hcmyk, if_neg (by omega),
    if_neg (by simp [htr])]
  rw [output_filename_eq_of_fits cfg (argv.getD 2 "") hfit]
  split_ifs <;> rfl

/-- C6 amended witness: with the delivered defaults and base `out`, the write
step receives exactly `out.jpg[Q=99]`. -/
theorem c6_witness :
    (run defaultConfig ["cmyk2srgbjpeg", "in.tif", "out"] envAllOk).writeTarget =
      some ("out" ++ "." ++ defaultConfig.jpegExtension ++ "[Q=" ++
        toString defaultConfig.jpegQuality ++ "]") :=
  c6_amended_write_target_is_composed_name defaultConfig _ envAllOk rfl rfl rfl
    (by decide) rfl (by decide)
